import Mathlib

/-!
Verification development for the Bilingual-Study-Flow repository.

The definitions below are a shallow embedding of the TypeScript source:
  * src/services/geminiService.ts   (AI request orchestrator)
  * src/unnamed/part_000            (Dashboard component, first variant)
  * src/unnamed/part_001            (Dashboard component, second variant,
                                     with the dubbed-audio export)
Asynchronous browser behaviour (promises, the abort signal, network calls)
is modelled by explicit environments that record the outcome of each
suspension point; machine-level JavaScript numbers are modelled by
`Option Nat`, with `none` standing for a result that is not a natural
number (NaN); strings are Lean strings operated on through character
lists so that every definition evaluates inside the kernel.
-/

namespace StudyFlow

/-! ## JavaScript-style string helpers -/

/-- Split a character list at every occurrence of the separator, keeping
empty fragments, exactly as JavaScript `s.split(sep)` does for a
one-character separator.  The result is always non-empty. -/
def splitCharsOn (sep : Char) : List Char → List (List Char)
  | [] => [[]]
  | c :: cs =>
    match splitCharsOn sep cs with
    | [] => [[c]]
    | f :: rest => if c = sep then [] :: f :: rest else (c :: f) :: rest

/-- JavaScript `timeStr.split(sep)` for a single-character separator. -/
def jsSplit (s : String) (sep : Char) : List String :=
  (splitCharsOn sep s.data).map (fun l => String.mk l)

/-- JavaScript `Number(s)` restricted to the fragment the claims exercise:
`Number("") = 0`, a string of decimal digits denotes that natural number,
and every other string is abstracted to `none` (a result that is not a
natural number, such as NaN or a fractional value). -/
def jsToNumber (s : String) : Option Nat :=
  match s.data with
  | [] => some 0
  | cs =>
    if cs.all Char.isDigit then
      some (cs.foldl (fun n c => n * 10 + (c.toNat - 48)) 0)
    else none

/-- JavaScript `haystack.includes(needle)` on character lists. -/
def hasSubList (needle : List Char) : List Char → Bool
  | [] => needle.isPrefixOf ([] : List Char)
  | c :: cs => needle.isPrefixOf (c :: cs) || hasSubList needle cs

/-- JavaScript `s.includes(sub)`. -/
def jsIncludes (s sub : String) : Bool :=
  hasSubList sub.data s.data

/-- JavaScript `Math.round (a / b)` for natural `a`, `b`: round half up. -/
def jsRound (a b : Nat) : Nat := (2 * a + b) / (2 * b)

/-! ## Data model (src/types, as consumed by the source files) -/

/-- Subtitle entity: identifier, start/end timestamps, original text and
Vietnamese translation (src/services/geminiService.ts lines 277-283). -/
structure Subtitle where
  id : Nat
  startTime : String
  endTime : String
  textOriginal : String
  textVietnamese : String
deriving DecidableEq, Repr

/-- Note entity: timestamp, title, content. -/
structure Note where
  timestamp : String
  title : String
  content : String
deriving DecidableEq, Repr

/-- Flashcard entity: identifier, term, definition, context. -/
structure Flashcard where
  id : String
  term : String
  definition : String
  context : String
deriving DecidableEq, Repr

/-- ProcessedData aggregate: the three ordered sequences. -/
structure ProcessedData where
  subtitles : List Subtitle
  notes : List Note
  flashcards : List Flashcard
deriving DecidableEq, Repr

/-! ## Timestamp parsing (src/unnamed/part_001 lines 15-20 and
src/unnamed/part_000 lines 21-29) -/

/-- parseTime from src/unnamed/part_001 lines 15-20:
`timeStr.split(':').map(Number)`, then `h*3600 + m*60 + s` for three
fields, `m*60 + s` for two fields, `0` otherwise.  `none` models a NaN
result (some field failed to parse as a natural number). -/
def parseTime (timeStr : String) : Option Nat :=
  match (jsSplit timeStr ':').map jsToNumber with
  | [h, m, s] =>
    match h, m, s with
    | some h, some m, some s => some (h * 3600 + m * 60 + s)
    | _, _, _ => none
  | [m, s] =>
    match m, s with
    | some m, some s => some (m * 60 + s)
    | _, _ => none
  | _ => some 0

/-- The inline timestamp parse of handleNoteClick in src/unnamed/part_000
lines 21-29, which repeats the parseTime logic verbatim. -/
def handleNoteClickSeconds (timestampStr : String) : Option Nat :=
  match (jsSplit timestampStr ':').map jsToNumber with
  | [h, m, s] =>
    match h, m, s with
    | some h, some m, some s => some (h * 3600 + m * 60 + s)
    | _, _, _ => none
  | [m, s] =>
    match m, s with
    | some m, some s => some (m * 60 + s)
    | _, _ => none
  | _ => some 0

/-! ## SRT export (identical in src/unnamed/part_000 lines 55-90 and
src/unnamed/part_001 lines 114-142) -/

/-- Millisecond normalization from exportSRT (part_001 lines 117-118):
`sub.startTime.includes(',') ? sub.startTime : sub.startTime + ",000"`. -/
def normalizeTimestamp (t : String) : String :=
  if jsIncludes t "," then t else t ++ ",000"

/-- The three export modes of exportSRT. -/
inductive SrtKind
  | bilingual
  | original
  | vietnamese
deriving DecidableEq, Repr

/-- Text lines appended for one subtitle depending on the mode
(part_001 lines 123-130). -/
def srtText (kind : SrtKind) (sub : Subtitle) : String :=
  match kind with
  | .bilingual => sub.textOriginal ++ "\n" ++ sub.textVietnamese ++ "\n\n"
  | .original => sub.textOriginal ++ "\n\n"
  | .vietnamese => sub.textVietnamese ++ "\n\n"

/-- One SRT block: index line, timestamp line, text lines and the
terminating blank line (part_001 lines 120-130). -/
def srtBlock (kind : SrtKind) (index : Nat) (sub : Subtitle) : String :=
  toString (index + 1) ++ "\n" ++
    normalizeTimestamp sub.startTime ++ " --> " ++
    normalizeTimestamp sub.endTime ++ "\n" ++
    srtText kind sub

/-- The forEach accumulation of exportSRT: `content += ...` per subtitle
with a running zero-based index. -/
def exportSRTLoop (kind : SrtKind) (content : String) (index : Nat) :
    List Subtitle → String
  | [] => content
  | sub :: rest => exportSRTLoop kind (content ++ srtBlock kind index sub) (index + 1) rest

/-- exportSRT (part_001 lines 114-142): build the full file content. -/
def exportSRT (kind : SrtKind) (subs : List Subtitle) : String :=
  exportSRTLoop kind "" 0 subs

/-- Concatenation of a list of blocks, used to state the shape of the
exported file. -/
def concatBlocks : List String → String
  | [] => ""
  | b :: bs => b ++ concatBlocks bs

/-! ## Compact response expansion (src/services/geminiService.ts
lines 274-295) -/

/-- Element of the compact `subs` array; every field required by the
response schema (lines 185-197). -/
structure RawSub where
  i : Nat
  s : String
  e : String
  en : String
  vi : String
deriving DecidableEq, Repr

/-- Element of the compact `nts` array (lines 199-210). -/
structure RawNote where
  ts : String
  ti : String
  co : String
deriving DecidableEq, Repr

/-- Element of the compact `cards` array (lines 211-223).  The `id` is
`none` when the key is missing from the parsed JSON object. -/
structure RawCard where
  id : Option String
  t : String
  d : String
  c : String
deriving DecidableEq, Repr

/-- The parsed compact JSON response (lines 182-226). -/
structure RawData where
  subs : List RawSub
  nts : List RawNote
  cards : List RawCard
deriving DecidableEq, Repr

/-- Renaming of one compact subtitle (lines 277-283). -/
def subOfRaw (r : RawSub) : Subtitle :=
  { id := r.i, startTime := r.s, endTime := r.e,
    textOriginal := r.en, textVietnamese := r.vi }

/-- Renaming of one compact note (lines 284-288). -/
def noteOfRaw (r : RawNote) : Note :=
  { timestamp := r.ts, title := r.ti, content := r.co }

/-- Renaming of one compact flashcard (lines 289-294).  The source reads
`id: c.id || Math.random().toString()`: a missing id AND a falsy
(empty-string) id are both replaced by the freshly generated value
`gen`, which stands for the `Math.random().toString()` call made for
this card. -/
def cardOfRaw (gen : String) (r : RawCard) : Flashcard :=
  { id := match r.id with
          | some s => if s = "" then gen else s
          | none => gen,
    term := r.t, definition := r.d, context := r.c }

/-- Expansion of the `cards` array; `gen i` is the random identifier the
`i`-th map call would generate if needed. -/
def expandCards (gen : Nat → String) : Nat → List RawCard → List Flashcard
  | _, [] => []
  | i, c :: cs => cardOfRaw (gen i) c :: expandCards gen (i + 1) cs

/-- The expansion step of processMediaWithGemini (lines 276-295): map the
compact arrays to the ProcessedData shape. -/
def expandData (gen : Nat → String) (raw : RawData) : ProcessedData :=
  { subtitles := raw.subs.map subOfRaw,
    notes := raw.nts.map noteOfRaw,
    flashcards := expandCards gen 0 raw.cards }

/-- Restatement of the expansion the way the specification describes it:
every compact element is renamed in place, with a present card id kept
verbatim.  Used only to compare `expandData` against the specification
text. -/
def specExpandedData (raw : RawData) : ProcessedData :=
  { subtitles := raw.subs.map (fun r => ⟨r.i, r.s, r.e, r.en, r.vi⟩),
    notes := raw.nts.map (fun r => ⟨r.ts, r.ti, r.co⟩),
    flashcards := raw.cards.map (fun c => ⟨c.id.getD "", c.t, c.d, c.c⟩) }

/-! ## Error mapping of the orchestrator catch block
(src/services/geminiService.ts lines 299-311) -/

/-- Cancellation message used throughout the orchestrator. -/
def cancelMsg : String := "Processing cancelled by user."

/-- The catch block of processMediaWithGemini (lines 299-311): the
cancellation error is re-thrown unchanged; otherwise the message is
matched against substrings and replaced by a fixed human-readable
message, falling back to re-throwing the original error. -/
def mapCatchError (msg : String) : String :=
  if msg = cancelMsg then msg
  else if jsIncludes msg "429" then "API Quota Exceeded. Please try again later."
  else if jsIncludes msg "503" then "Server overloaded. Try again shortly."
  else if jsIncludes msg "SAFETY" then "Content blocked by safety filters."
  else if jsIncludes msg "400" && jsIncludes msg "context" then "File too long (Context Exceeded)."
  else if jsIncludes msg "403" then "Invalid API Key."
  else msg

/-- The fixed set of human-readable replacement messages of the catch
block. -/
def fixedErrorMessages : List String :=
  ["API Quota Exceeded. Please try again later.",
   "Server overloaded. Try again shortly.",
   "Content blocked by safety filters.",
   "File too long (Context Exceeded).",
   "Invalid API Key."]

/-! ## File-activation poll loop (src/services/geminiService.ts
lines 49-87) -/

/-- Retry bound of waitForFileActive (line 56). -/
def maxAttempts : Nat := 120

/-- Inter-poll delay in milliseconds (line 57). -/
def delayMs : Nat := 5000

/-- Environment of one run of waitForFileActive.  Attempt `i` touches
three suspension points, numbered on a global timeline: `3*i` is the
`signal?.aborted` check at the head of the loop body, `3*i + 1` is the
in-flight `ai.files.get` request, and `3*i + 2` is the `setTimeout`
delay.  `abortPoint = some p` means the abort signal fires at point `p`
(and stays fired afterwards); `state i` is the outcome of the `i`-th
status request when it is allowed to complete: either the returned
`fileStatus.state` string or a rejection of the request itself. -/
structure PollEnv where
  state : Nat → Except String String
  abortPoint : Option Nat

/-- Whether the abort signal is already fired when execution reaches
timeline point `q`. -/
def abortedBy (env : PollEnv) (q : Nat) : Bool :=
  match env.abortPoint with
  | none => false
  | some p => p ≤ q

/-- The poll loop of waitForFileActive (lines 59-85), with the fuel
argument counting the remaining attempts (`i` is the index of the
current attempt, so the loop starts as `waitFrom env 0 maxAttempts`).
The second component counts the status requests actually issued.
Per iteration: the head abort check throws the cancellation error
(line 60); a request interrupted by the signal rejects with the
cancellation error through runWithCancellation (line 62, lines 5-24);
an ACTIVE state returns, a FAILED state throws (lines 66-67); the
delay promise rejects with the cancellation error if the signal fires
while it is pending (lines 74-84); exhausting the bound throws the
timeout error (line 86). -/
def waitFrom (env : PollEnv) : Nat → Nat → Except String Unit × Nat
  | _, 0 => (.error "File upload timed out.", 0)
  | i, fuel + 1 =>
    if abortedBy env (3 * i) then (.error cancelMsg, 0)
    else if env.abortPoint = some (3 * i + 1) then (.error cancelMsg, 1)
    else
      match env.state i with
      | .error e => (.error e, 1)
      | .ok st =>
        if st = "ACTIVE" then (.ok (), 1)
        else if st = "FAILED" then (.error "File processing failed on Gemini server.", 1)
        else if env.abortPoint = some (3 * i + 2) then (.error cancelMsg, 1)
        else
          let r := waitFrom env (i + 1) fuel
          (r.1, r.2 + 1)

/-- waitForFileActive (lines 49-87): run the poll loop from the first
attempt with the configured bound. -/
def waitForFileActive (env : PollEnv) : Except String Unit × Nat :=
  waitFrom env 0 maxAttempts

/-! ## The orchestrator processMediaWithGemini
(src/services/geminiService.ts lines 140-312) -/

/-- Network or file operations the orchestrator can perform, recorded in
order: the FileReader read of a small file, the out-of-band upload, one
`ai.files.get` status poll, and the generation request. -/
inductive NetOp
  | fileRead
  | upload
  | filesGet
  | generate
deriving DecidableEq, Repr

/-- Media part handed to the generation call: inline base64 data for
small files, a file reference for uploaded ones (lines 161 and 175). -/
inductive MediaPart
  | inlineData (base64 : String)
  | fileData (uri : String)
deriving DecidableEq, Repr

/-- Environment of one invocation of processMediaWithGemini.  Each field
records the outcome of one suspension point of the real code; an
`Except.error` value carries the message of the rejection, which
includes the cancellation message when the abort signal fired during
that operation. -/
structure ProcEnv where
  /-- Whether `signal?.aborted` already holds at line 147. -/
  abortedAtStart : Bool
  /-- Whether `process.env.API_KEY` is set (line 149). -/
  apiKeyPresent : Bool
  /-- Whether `file.size < 20 * 1024 * 1024` (lines 154, 158). -/
  fileSmall : Bool
  /-- Outcome of fileToGenerativePart (line 160): base64 content. -/
  fileRead : Except String String
  /-- Outcome of the upload (lines 164-168): the `uri` and `name`
  fields, each possibly absent. -/
  upload : Except String (Option String × Option String)
  /-- Environment of the nested waitForFileActive call (line 174). -/
  poll : PollEnv
  /-- Outcome of the generation request (lines 257-269): the
  `response.text` field, possibly absent. -/
  genText : Except String (Option String)
  /-- Outcome of `JSON.parse` on the response text plus the typed access
  to its `subs`, `nts`, `cards` arrays (line 274). -/
  parseJson : String → Except String RawData
  /-- Stream of `Math.random().toString()` identifiers (line 290). -/
  gen : Nat → String

/-- A JavaScript truthiness check for the optional upload fields
(line 171: `if (!fileUri || !fileName) throw new Error("Upload failed.")`,
where both `undefined` and the empty string are falsy). -/
def jsTruthy : Option String → Bool
  | none => false
  | some s => s ≠ ""

/-- STEP 1 of processMediaWithGemini (lines 157-176): prepare the media
part, reading a small file inline or uploading a large one and waiting
for it to become ACTIVE.  Returns the part or the first error, plus the
operations performed. -/
def prepareMedia (env : ProcEnv) : Except String MediaPart × List NetOp :=
  if env.fileSmall then
    match env.fileRead with
    | .error e => (.error e, [.fileRead])
    | .ok b64 => (.ok (.inlineData b64), [.fileRead])
  else
    match env.upload with
    | .error e => (.error e, [.upload])
    | .ok (uriOpt, nameOpt) =>
      if jsTruthy uriOpt && jsTruthy nameOpt then
        let w := waitForFileActive env.poll
        let ops := NetOp.upload :: List.replicate w.2 NetOp.filesGet
        match w.1 with
        | .error e => (.error e, ops)
        | .ok _ =>
          match uriOpt with
          | some uri => (.ok (.fileData uri), ops)
          | none => (.error "Upload failed.", ops)
      else (.error "Upload failed.", [.upload])

/-- The try block of processMediaWithGemini (lines 146-297): abort
check, credential check, media preparation, generation request, parse
and expansion.  The second component records the operations performed. -/
def processTry (env : ProcEnv) : Except String ProcessedData × List NetOp :=
  if env.abortedAtStart then (.error cancelMsg, [])
  else if env.apiKeyPresent = false then (.error "API Key is missing.", [])
  else
    match prepareMedia env with
    | (.error e, ops) => (.error e, ops)
    | (.ok _, ops) =>
      match env.genText with
      | .error e => (.error e, ops ++ [.generate])
      | .ok none => (.error "No response from AI", ops ++ [.generate])
      | .ok (some txt) =>
        match env.parseJson txt with
        | .error e => (.error e, ops ++ [.generate])
        | .ok raw => (.ok (expandData env.gen raw), ops ++ [.generate])

/-- processMediaWithGemini (lines 140-312): the try block wrapped in the
catch block that rewrites error messages. -/
def processMediaWithGemini (env : ProcEnv) : Except String ProcessedData × List NetOp :=
  match processTry env with
  | (.ok d, ops) => (.ok d, ops)
  | (.error e, ops) => (.error (mapCatchError e), ops)

/-! ## Dubbed-audio generation (src/unnamed/part_001 lines 63-112) -/

/-- Result of the dubbing loop: the audio clips scheduled on the offline
context as (start offset in seconds, clip) pairs in scheduling order,
the number of lines processed, and the last reported progress value. -/
structure DubResult where
  scheduled : List (Option Nat × Nat)
  processedCount : Nat
  progress : Nat
deriving DecidableEq, Repr

/-- The per-line loop of handleDownloadDubbedAudio (lines 78-92).
`tts j` is the outcome of the try block of line `j` (getTTSAudio through
`source.start`): `some clip` when the clip is scheduled, `none` when any
step failed and the catch of lines 86-88 logged and skipped the line.
Each iteration parses the line's start time, schedules the clip at that
offset on success, always increments `processedCount`, and reports
`Math.round((processedCount / total) * 100)`. -/
def dubGo (tts : Nat → Option Nat) (total : Nat) :
    Nat → Nat → Nat → List (Option Nat × Nat) → List Subtitle → DubResult
  | _, count, prog, sched, [] => ⟨sched, count, prog⟩
  | j, count, prog, sched, sub :: rest =>
    let startTime := parseTime sub.startTime
    let sched' :=
      match tts j with
      | some clip => sched ++ [(startTime, clip)]
      | none => sched
    let _ := prog
    dubGo tts total (j + 1) (count + 1)
      (jsRound ((count + 1) * 100) total) sched' rest

/-- handleDownloadDubbedAudio's scheduling loop over the full subtitle
list (lines 76-92): start from line 0 with nothing processed. -/
def handleDownloadDubbedAudio (tts : Nat → Option Nat) (subs : List Subtitle) : DubResult :=
  dubGo tts subs.length 0 0 0 [] subs

/-- Total duration in seconds chosen for the offline render (line 71):
the parsed end time of the last subtitle plus 10 seconds, or 60 seconds
when the list is empty; `none` models a NaN duration. -/
def totalDuration (subs : List Subtitle) : Option Nat :=
  match subs.getLast? with
  | some lastSub => (parseTime lastSub.endTime).map (fun d => d + 10)
  | none => some 60

/-- Fixed sample rate of the offline render (line 73). -/
def dubSampleRate : Nat := 24000

/-- Constructor arguments of the OfflineAudioContext (line 74): one
channel, `sampleRate * totalDuration` frames, at the fixed sample
rate. -/
structure OfflineCtxParams where
  numberOfChannels : Nat
  lengthFrames : Option Nat
  sampleRate : Nat
deriving DecidableEq, Repr

/-- The offline rendering context created by handleDownloadDubbedAudio
(line 74). -/
def dubOfflineCtx (subs : List Subtitle) : OfflineCtxParams :=
  ⟨1, (totalDuration subs).map (fun d => dubSampleRate * d), dubSampleRate⟩

/-- Modelled from the spec: the function audioBufferToWav is imported by
src/unnamed/part_001 from the services module but its definition is not
present under src.  Per the specification the exported audio file is a
standard uncompressed PCM container whose duration equals the rendered
buffer's duration, that is, its frame count divided by its sample
rate. -/
def wavDurationSeconds (frames sampleRate : Nat) : Nat :=
  frames / sampleRate

/-- Clips scheduled by the dubbing loop starting at line index `j`: one
(offset, clip) pair per line whose try block succeeds, in subtitle
order.  Used to state what `dubGo` accumulates. -/
def schedList (tts : Nat → Option Nat) : Nat → List Subtitle → List (Option Nat × Nat)
  | _, [] => []
  | j, sub :: rest =>
    (match tts j with
     | some clip => [(parseTime sub.startTime, clip)]
     | none => []) ++ schedList tts (j + 1) rest

/-! ## Concrete environments and inputs used by the witnesses -/

/-- Poll environment whose status requests always answer a non-terminal
state and whose abort signal never fires. -/
def idlePollEnv : PollEnv :=
  ⟨fun _ => .ok "PROCESSING", none⟩

/-- Poll environment whose abort signal fires at timeline point 4, that
is, while the second status request is in flight. -/
def abortedPollEnv : PollEnv :=
  ⟨fun _ => .ok "PROCESSING", some 4⟩

/-- Orchestrator environment whose abort signal is already fired when
the call starts. -/
def abortedEnv : ProcEnv :=
  { abortedAtStart := true, apiKeyPresent := true, fileSmall := true,
    fileRead := .ok "", upload := .ok (none, none),
    poll := idlePollEnv,
    genText := .ok none, parseJson := fun _ => .error "parse", gen := fun _ => "" }

/-- Sample subtitles for the witnesses. -/
def subW1 : Subtitle := ⟨1, "00:00:01", "00:00:04", "Hello", "Xin chao"⟩

def subW2 : Subtitle := ⟨2, "00:00:05", "00:00:07", "Bye", "Tam biet"⟩

def subW3 : Subtitle := ⟨1, "00:00:01", "00:00:05", "a", "b"⟩

/-! ## Theorems -/

/-- C8: in exportSRT, a timestamp that already contains a comma is
emitted unchanged, and a timestamp without a comma is emitted with
",000" appended (part_001 lines 117-118, part_000 lines 64-69). -/
theorem normalizeTimestamp_spec (t : String) :
    (jsIncludes t "," = true → normalizeTimestamp t = t) ∧
    (jsIncludes t "," = false → normalizeTimestamp t = t ++ ",000") := by
  constructor <;> intro h <;> simp [normalizeTimestamp, h]

/-- Witness for normalizeTimestamp_spec at a timestamp with and a
timestamp without a millisecond component. -/
theorem normalizeTimestamp_spec_witness :
    (jsIncludes "00:00:01,500" "," = true ∧
      normalizeTimestamp "00:00:01,500" = "00:00:01,500") ∧
    (jsIncludes "00:00:01" "," = false ∧
      normalizeTimestamp "00:00:01" = "00:00:01" ++ ",000") :=
  ⟨⟨by decide, (normalizeTimestamp_spec "00:00:01,500").1 (by decide)⟩,
   ⟨by decide, (normalizeTimestamp_spec "00:00:01").2 (by decide)⟩⟩

/-- Helper: parseTime falls back to 0 whenever the split does not have
exactly two or three fields. -/
theorem parseTime_default (t : String)
    (h2 : (jsSplit t ':').length ≠ 2) (h3 : (jsSplit t ':').length ≠ 3) :
    parseTime t = some 0 := by
  rcases hsp : jsSplit t ':' with _ | ⟨a, _ | ⟨b, _ | ⟨c, _ | ⟨d, tail⟩⟩⟩⟩
  · simp [parseTime, hsp]
  · simp [parseTime, hsp]
  · exact absurd (by simp [hsp]) h2
  · exact absurd (by simp [hsp]) h3
  · simp [parseTime, hsp]

/-- C10: the timestamp parser used for note-click seeking and dub
scheduling returns h*3600 + m*60 + s for three colon-separated numeric
fields, m*60 + s for two, and 0 for any other shape; the inline parse
of handleNoteClick (part_000) computes the same value, and a malformed
subtitle start time makes the dub loop schedule its line at offset 0. -/
theorem parseTime_shape :
    (∀ t h m s, (jsSplit t ':').map jsToNumber = [some h, some m, some s] →
      parseTime t = some (h * 3600 + m * 60 + s)) ∧
    (∀ t m s, (jsSplit t ':').map jsToNumber = [some m, some s] →
      parseTime t = some (m * 60 + s)) ∧
    (∀ t, (jsSplit t ':').length ≠ 2 → (jsSplit t ':').length ≠ 3 →
      parseTime t = some 0) ∧
    (∀ t, handleNoteClickSeconds t = parseTime t) ∧
    (∀ sub : Subtitle,
      (jsSplit sub.startTime ':').length ≠ 2 → (jsSplit sub.startTime ':').length ≠ 3 →
      (handleDownloadDubbedAudio (fun _ => some 7) [sub]).scheduled = [(some 0, 7)]) := by
  refine ⟨?_, ?_, parseTime_default, fun _ => rfl, ?_⟩
  · intro t h m s hsp
    simp [parseTime, hsp]
  · intro t m s hsp
    simp [parseTime, hsp]
  · intro sub h2 h3
    simp [handleDownloadDubbedAudio, dubGo, parseTime_default sub.startTime h2 h3]

/-- Witness for parseTime_shape at a three-field, a two-field and a
bare-number timestamp. -/
theorem parseTime_shape_witness :
    ((jsSplit "01:02:03" ':').map jsToNumber = [some 1, some 2, some 3] ∧
      parseTime "01:02:03" = some (1 * 3600 + 2 * 60 + 3)) ∧
    ((jsSplit "02:03" ':').map jsToNumber = [some 2, some 3] ∧
      parseTime "02:03" = some (2 * 60 + 3)) ∧
    ((jsSplit "42" ':').length ≠ 2 ∧ (jsSplit "42" ':').length ≠ 3 ∧
      parseTime "42" = some 0) :=
  ⟨⟨by decide, parseTime_shape.1 "01:02:03" 1 2 3 (by decide)⟩,
   ⟨by decide, parseTime_shape.2.1 "02:03" 2 3 (by decide)⟩,
   by decide, by decide, parseTime_shape.2.2.1 "42" (by decide) (by decide)⟩

/-- Helper: the accumulated content of the export loop factors out. -/
theorem exportSRTLoop_content (kind : SrtKind) :
    ∀ (subs : List Subtitle) (c : String) (i : Nat),
    exportSRTLoop kind c i subs = c ++ exportSRTLoop kind "" i subs := by
  intro subs
  induction subs with
  | nil => intro c i; exact (String.append_empty c).symm
  | cons sub rest ih =>
    intro c i
    simp only [exportSRTLoop]
    rw [ih (c ++ srtBlock kind i sub) (i + 1), ih ("" ++ srtBlock kind i sub) (i + 1),
      String.empty_append, String.append_assoc]

/-- Helper: the export loop emits exactly one block per subtitle, in
order, indexed consecutively from the starting index. -/
theorem exportSRTLoop_blocks (kind : SrtKind) :
    ∀ (subs : List Subtitle) (i : Nat),
    exportSRTLoop kind "" i subs =
      concatBlocks ((List.range' i subs.length).zipWith (srtBlock kind) subs) := by
  intro subs
  induction subs with
  | nil => intro i; rfl
  | cons sub rest ih =>
    intro i
    simp only [exportSRTLoop, List.length_cons]
    rw [exportSRTLoop_content kind rest ("" ++ srtBlock kind i sub) (i + 1),
      String.empty_append, ih (i + 1)]
    have hr : List.range' i (rest.length + 1) = i :: List.range' (i + 1) rest.length := by
      simpa using List.range'_succ i rest.length 1
    rw [hr]
    rfl

/-- C7: exportSRT in original mode produces exactly one block per
subtitle in list order, each made of the 1-based index line, the
timestamp line, and the original text followed by a blank line; the
output never draws on the translated text (it is invariant under any
replacement of the textVietnamese fields). -/
theorem exportSRT_original_mode (subs : List Subtitle) :
    exportSRT .original subs =
      concatBlocks ((List.range subs.length).zipWith
        (fun i sub =>
          toString (i + 1) ++ "\n" ++
            normalizeTimestamp sub.startTime ++ " --> " ++
            normalizeTimestamp sub.endTime ++ "\n" ++
            (sub.textOriginal ++ "\n\n")) subs) ∧
    ∀ f : Subtitle → String,
      exportSRT .original (subs.map (fun sub => { sub with textVietnamese := f sub })) =
        exportSRT .original subs := by
  constructor
  · rw [exportSRT, exportSRTLoop_blocks, List.range_eq_range']
    rfl
  · intro f
    rw [exportSRT, exportSRT, exportSRTLoop_blocks, exportSRTLoop_blocks, List.length_map,
      List.zipWith_map_right]
    rfl

/-- Helper: when every card id is present and non-empty, the card
expansion is the plain renaming, independent of the generated
identifiers. -/
theorem expandCards_eq_map :
    ∀ (cs : List RawCard) (gen : Nat → String) (j : Nat),
    (∀ c ∈ cs, ∃ s, c.id = some s ∧ s ≠ "") →
    expandCards gen j cs = cs.map (fun c => ⟨c.id.getD "", c.t, c.d, c.c⟩) := by
  intro cs
  induction cs with
  | nil => intros; rfl
  | cons c rest ih =>
    intro gen j h
    obtain ⟨s, hs, hne⟩ := h c (List.mem_cons_self c rest)
    simp only [expandCards, List.map_cons]
    rw [ih gen (j + 1) (fun x hx => h x (List.mem_cons_of_mem c hx))]
    simp [cardOfRaw, hs, hne]

/-- C1, counterexample to the claim as stated: a cards element whose
required id field is present but equal to the empty string is falsy in
JavaScript, so the code replaces it with a generated identifier; the
expansion therefore neither preserves the id nor is deterministic. -/
theorem expandData_blank_id_counterexample :
    expandData (fun _ => "0.123") ⟨[], [], [⟨some "", "t", "d", "c"⟩]⟩ ≠
      specExpandedData ⟨[], [], [⟨some "", "t", "d", "c"⟩]⟩ ∧
    expandData (fun _ => "0.123") ⟨[], [], [⟨some "", "t", "d", "c"⟩]⟩ ≠
      expandData (fun _ => "0.456") ⟨[], [], [⟨some "", "t", "d", "c"⟩]⟩ := by
  exact ⟨by decide, by decide⟩

/-- C1 as amended: an identifier is generated when the card id is
absent or empty (JavaScript-falsy); for a compact response in which
every required field is present and every card id is non-empty, the
expansion step maps it deterministically to the ProcessedData shape
with all fields renamed and no element dropped or reordered. -/
theorem expandData_renames (gen gen' : Nat → String) (raw : RawData)
    (h : ∀ c ∈ raw.cards, ∃ s, c.id = some s ∧ s ≠ "") :
    expandData gen raw = specExpandedData raw ∧
      expandData gen raw = expandData gen' raw := by
  have h1 := expandCards_eq_map raw.cards gen 0 h
  have h2 := expandCards_eq_map raw.cards gen' 0 h
  constructor
  · unfold expandData specExpandedData
    rw [h1]
    rfl
  · unfold expandData
    rw [h1, h2]

/-- Witness for expandData_renames at a one-element response with a
present, non-empty card id. -/
theorem expandData_renames_witness :
    expandData (fun _ => "0.1") ⟨[⟨1, "s", "e", "en", "vi"⟩], [⟨"ts", "ti", "co"⟩],
        [⟨some "x", "t", "d", "c"⟩]⟩ =
      specExpandedData ⟨[⟨1, "s", "e", "en", "vi"⟩], [⟨"ts", "ti", "co"⟩],
        [⟨some "x", "t", "d", "c"⟩]⟩ ∧
    expandData (fun _ => "0.1") ⟨[⟨1, "s", "e", "en", "vi"⟩], [⟨"ts", "ti", "co"⟩],
        [⟨some "x", "t", "d", "c"⟩]⟩ =
      expandData (fun _ => "0.2") ⟨[⟨1, "s", "e", "en", "vi"⟩], [⟨"ts", "ti", "co"⟩],
        [⟨some "x", "t", "d", "c"⟩]⟩ :=
  expandData_renames (fun _ => "0.1") (fun _ => "0.2") _
    (by intro c hc; rcases List.mem_singleton.mp hc with rfl; exact ⟨"x", rfl, by decide⟩)

/-- Helper: the catch block either passes the message through unchanged
or replaces it with one of the five fixed human-readable messages. -/
theorem mapCatchError_cases (m : String) :
    mapCatchError m = m ∨ mapCatchError m ∈ fixedErrorMessages := by
  unfold mapCatchError
  split
  · exact Or.inl rfl
  split
  · exact Or.inr (by simp [fixedErrorMessages])
  split
  · exact Or.inr (by simp [fixedErrorMessages])
  split
  · exact Or.inr (by simp [fixedErrorMessages])
  split
  · exact Or.inr (by simp [fixedErrorMessages])
  split
  · exact Or.inr (by simp [fixedErrorMessages])
  · exact Or.inl rfl

/-- Helper: the try block either succeeds with the full expansion of
one parsed response or fails with some error message. -/
theorem processTry_cases (env : ProcEnv) :
    (∃ txt raw ops, env.genText = .ok (some txt) ∧ env.parseJson txt = .ok raw ∧
      processTry env = (.ok (expandData env.gen raw), ops)) ∨
    (∃ m ops, processTry env = (.error m, ops)) := by
  cases hab : env.abortedAtStart with
  | true => exact Or.inr ⟨cancelMsg, [], by simp [processTry, hab]⟩
  | false =>
  cases hk : env.apiKeyPresent with
  | false => exact Or.inr ⟨"API Key is missing.", [], by simp [processTry, hab, hk]⟩
  | true =>
  rcases hpm : prepareMedia env with ⟨r, ops⟩
  rcases r with e | part
  · exact Or.inr ⟨e, ops, by simp [processTry, hab, hk, hpm]⟩
  rcases hg : env.genText with e | txtOpt
  · exact Or.inr ⟨e, ops ++ [.generate], by simp [processTry, hab, hk, hpm, hg]⟩
  rcases txtOpt with _ | txt
  · exact Or.inr ⟨"No response from AI", ops ++ [.generate],
      by simp [processTry, hab, hk, hpm, hg]⟩
  rcases hp : env.parseJson txt with e | raw
  · exact Or.inr ⟨e, ops ++ [.generate], by simp [processTry, hab, hk, hpm, hg, hp]⟩
  · exact Or.inl ⟨txt, raw, ops ++ [.generate], rfl, hp,
      by simp [processTry, hab, hk, hpm, hg, hp]⟩

/-- C2: processMediaWithGemini is all-or-nothing — it either returns the
complete ProcessedData expanded from the single parsed response, or an
error; and every error it surfaces is the catch-block image of some
message, which is either the original message passed through (the
cancellation message included) or one of the five fixed human-readable
messages. -/
theorem processMedia_all_or_nothing (env : ProcEnv) :
    ((∃ txt raw, env.genText = .ok (some txt) ∧ env.parseJson txt = .ok raw ∧
        (processMediaWithGemini env).1 = .ok (expandData env.gen raw)) ∨
      (∃ m, (processMediaWithGemini env).1 = .error (mapCatchError m))) ∧
    (∀ m, mapCatchError m = m ∨ mapCatchError m ∈ fixedErrorMessages) := by
  constructor
  · rcases processTry_cases env with ⟨txt, raw, ops, hg, hp, hpt⟩ | ⟨m, ops, hpt⟩
    · exact Or.inl ⟨txt, raw, hg, hp, by simp [processMediaWithGemini, hpt]⟩
    · exact Or.inr ⟨m, by simp [processMediaWithGemini, hpt]⟩
  · exact mapCatchError_cases

/-- C5: a call whose abort signal is already fired rejects with the
cancellation error and performs no operation at all — no file read, no
upload, no status poll, no generation request. -/
theorem processMedia_pre_aborted (env : ProcEnv) (h : env.abortedAtStart = true) :
    processMediaWithGemini env = (.error cancelMsg, []) := by
  simp [processMediaWithGemini, processTry, h, mapCatchError]

/-- Witness for processMedia_pre_aborted at a concrete environment. -/
theorem processMedia_pre_aborted_witness :
    abortedEnv.abortedAtStart = true ∧
      processMediaWithGemini abortedEnv = (.error cancelMsg, []) :=
  ⟨rfl, processMedia_pre_aborted abortedEnv rfl⟩

/-- Helper: the poll loop never issues more status requests than it has
fuel for. -/
theorem waitFrom_le (env : PollEnv) : ∀ (fuel i : Nat), (waitFrom env i fuel).2 ≤ fuel := by
  intro fuel
  induction fuel with
  | zero => intro i; simp [waitFrom]
  | succ n ih =>
    intro i
    simp only [waitFrom]
    split
    · simp
    split
    · simp
    split
    · simp
    split
    · simp
    split
    · simp
    split
    · simp
    · exact Nat.succ_le_succ (ih (i + 1))

/-- Helper: with no abort and only non-terminal states, the poll loop
consumes all its fuel and times out. -/
theorem waitFrom_timeout (env : PollEnv) (hab : env.abortPoint = none) :
    ∀ (fuel i : Nat),
    (∀ j, i ≤ j → j < i + fuel → ∃ s, env.state j = .ok s ∧ s ≠ "ACTIVE" ∧ s ≠ "FAILED") →
    waitFrom env i fuel = (.error "File upload timed out.", fuel) := by
  intro fuel
  induction fuel with
  | zero => intro i _; rfl
  | succ n ih =>
    intro i h
    obtain ⟨s, hs, hA, hF⟩ := h i (Nat.le_refl i) (by omega)
    have hrec := ih (i + 1) (fun j hj1 hj2 => h j (by omega) (by omega))
    simp [waitFrom, abortedBy, hab, hs, hA, hF, hrec]

/-- C4: if no status request ever returns ACTIVE or FAILED and the
abort signal never fires, waitForFileActive issues exactly the
configured maximum number of poll attempts — 120, at the fixed 5000 ms
interval — and then throws the timeout error "File upload timed out."
and no other error. -/
theorem waitForFileActive_timeout (env : PollEnv)
    (hab : env.abortPoint = none)
    (h : ∀ i, i < maxAttempts → ∃ s, env.state i = .ok s ∧ s ≠ "ACTIVE" ∧ s ≠ "FAILED") :
    waitForFileActive env = (.error "File upload timed out.", maxAttempts) ∧
      maxAttempts = 120 ∧ delayMs = 5000 :=
  ⟨waitFrom_timeout env hab maxAttempts 0 (fun j _ hj => h j (by omega)), rfl, rfl⟩

/-- Witness for waitForFileActive_timeout at the always-processing
environment. -/
theorem waitForFileActive_timeout_witness :
    idlePollEnv.abortPoint = none ∧
      waitForFileActive idlePollEnv = (.error "File upload timed out.", maxAttempts) :=
  ⟨rfl, (waitForFileActive_timeout idlePollEnv rfl
    (fun _ _ => ⟨"PROCESSING", rfl, by decide, by decide⟩)).1⟩

/-- Helper: once the abort signal is scheduled to fire inside the
loop's remaining window, the loop surfaces the cancellation error. -/
theorem waitFrom_cancel (env : PollEnv) (p : Nat) (hab : env.abortPoint = some p) :
    ∀ (fuel i : Nat), 3 * i ≤ p → p < 3 * (i + fuel) →
    (∀ j, 3 * j + 1 < p → ∃ s, env.state j = .ok s ∧ s ≠ "ACTIVE" ∧ s ≠ "FAILED") →
    (waitFrom env i fuel).1 = .error cancelMsg := by
  intro fuel
  induction fuel with
  | zero => intro i h1 h2 _; exact absurd h2 (by omega)
  | succ n ih =>
    intro i hlo hhi h
    by_cases hple : p ≤ 3 * i
    · have hib : abortedBy env (3 * i) = true := by simp [abortedBy, hab, hple]
      simp [waitFrom, hib]
    · have hib : abortedBy env (3 * i) = false := by
        simp only [abortedBy, hab, decide_eq_false_iff_not]
        omega
      by_cases hp1 : p = 3 * i + 1
      · simp [waitFrom, hib, hab, hp1]
      · obtain ⟨s, hs, hA, hF⟩ := h i (by omega)
        by_cases hp2 : p = 3 * i + 2
        · simp [waitFrom, hib, hab, hp1, hs, hA, hF, hp2]
        · have hrec := ih (i + 1) (by omega) (by omega) h
          simp [waitFrom, hib, hab, hp1, hs, hA, hF, hp2, hrec]

/-- C6: if the abort signal fires while the poll loop is running —
at a head check, during a status request, or during the inter-poll
delay, with every status request completed before that point returning
a non-terminal state — the loop exits without reaching its retry
bound's timeout throw and surfaces the cancellation error, never the
timeout error. -/
theorem waitForFileActive_cancelled (env : PollEnv) (p : Nat)
    (hab : env.abortPoint = some p) (hp : p < 3 * maxAttempts)
    (h : ∀ j, 3 * j + 1 < p → ∃ s, env.state j = .ok s ∧ s ≠ "ACTIVE" ∧ s ≠ "FAILED") :
    (waitForFileActive env).1 = .error cancelMsg ∧
      (waitForFileActive env).1 ≠ .error "File upload timed out." ∧
      (waitForFileActive env).2 ≤ maxAttempts := by
  have h1 : (waitForFileActive env).1 = .error cancelMsg :=
    waitFrom_cancel env p hab maxAttempts 0 (by omega) (by omega) h
  exact ⟨h1, by rw [h1]; simp [cancelMsg], waitFrom_le env maxAttempts 0⟩

/-- Witness for waitForFileActive_cancelled at the environment whose
signal fires during the second status request. -/
theorem waitForFileActive_cancelled_witness :
    abortedPollEnv.abortPoint = some 4 ∧ 4 < 3 * maxAttempts ∧
      (waitForFileActive abortedPollEnv).1 = .error cancelMsg :=
  ⟨rfl, by decide, (waitForFileActive_cancelled abortedPollEnv 4 rfl (by decide)
    (fun _ _ => ⟨"PROCESSING", rfl, by decide, by decide⟩)).1⟩

/-- Helper: rounding a full count is exactly 100 percent. -/
theorem jsRound_full (L : Nat) (h : 0 < L) : jsRound (L * 100) L = 100 := by
  unfold jsRound
  have h1 : 2 * (L * 100) + L = L * 201 := by ring
  have h2 : 2 * L = L * 2 := by ring
  rw [h1, h2, Nat.mul_div_mul_left 201 2 h]

/-- Helper: closed form of the dubbing loop — it schedules exactly the
clips of `schedList`, processes every line, and last reports the
rounded percentage of the full count. -/
theorem dubGo_spec (tts : Nat → Option Nat) (total : Nat) :
    ∀ (subs : List Subtitle) (j count prog : Nat) (sched : List (Option Nat × Nat)),
    dubGo tts total j count prog sched subs =
      ⟨sched ++ schedList tts j subs, count + subs.length,
        if subs.isEmpty then prog else jsRound ((count + subs.length) * 100) total⟩ := by
  intro subs
  induction subs with
  | nil => intro j count prog sched; simp [dubGo, schedList]
  | cons sub rest ih =>
    intro j count prog sched
    simp only [dubGo, schedList]
    rcases htts : tts j with _ | clip <;>
      rcases rest with _ | ⟨r2, rest2⟩ <;>
        simp [htts, ih, List.append_assoc, Nat.add_comm, Nat.add_assoc, Nat.add_left_comm]

/-- Helper: when exactly the line at index `k` fails, the scheduled
clips are precisely the other lines, each at its parsed start offset. -/
theorem schedList_filter (clip : Nat → Nat) (k : Nat) :
    ∀ (subs : List Subtitle) (n : Nat),
    schedList (fun j => if j = k then none else some (clip j)) n subs =
      ((subs.enumFrom n).filter (fun q => q.1 != k)).map
        (fun q => (parseTime q.2.startTime, clip q.1)) := by
  intro subs
  induction subs with
  | nil => intro n; rfl
  | cons sub rest ih =>
    intro n
    by_cases hn : n = k <;> simp [schedList, hn, List.enumFrom, ih]

/-- C3: when the per-line TTS request fails for exactly one of the N
lines, the dubbing loop does not abort — it still processes every line,
schedules each of the other N-1 lines at its parsed start-time offset
in the offline rendering context, in order, and the reported progress
reaches 100 percent. -/
theorem dub_batch_survives_one_failure (clip : Nat → Nat) (k : Nat)
    (subs : List Subtitle) (hne : subs ≠ []) (hk : k < subs.length) :
    (handleDownloadDubbedAudio (fun j => if j = k then none else some (clip j))
        subs).processedCount = subs.length ∧
    (handleDownloadDubbedAudio (fun j => if j = k then none else some (clip j))
        subs).progress = 100 ∧
    (handleDownloadDubbedAudio (fun j => if j = k then none else some (clip j))
        subs).scheduled =
      ((subs.enum).filter (fun q => q.1 != k)).map
        (fun q => (parseTime q.2.startTime, clip q.1)) := by
  have hlen : 0 < subs.length := List.length_pos.mpr hne
  have hemp : subs.isEmpty = false := by
    cases subs with
    | nil => exact absurd rfl hne
    | cons a l => rfl
  unfold handleDownloadDubbedAudio
  rw [dubGo_spec]
  refine ⟨by simp, ?_, ?_⟩
  · simp only [hemp, Bool.false_eq_true, if_false, Nat.zero_add]
    exact jsRound_full subs.length hlen
  · simp only [List.nil_append]
    exact schedList_filter clip k subs 0

/-- Witness for dub_batch_survives_one_failure on a two-line list whose
first line fails. -/
theorem dub_batch_survives_one_failure_witness :
    ([subW1, subW2] : List Subtitle) ≠ [] ∧ 0 < ([subW1, subW2] : List Subtitle).length ∧
      (handleDownloadDubbedAudio (fun j => if j = 0 then none else some (j + 10))
        [subW1, subW2]).progress = 100 :=
  ⟨by decide, by decide,
    (dub_batch_survives_one_failure (fun j => j + 10) 0 [subW1, subW2]
      (by decide) (by decide)).2.1⟩

/-- C9: for a non-empty subtitle list whose last end time parses, the
dubbed-audio export creates a mono offline rendering context at the
fixed 24000 Hz sample rate whose frame count covers the parsed end time
of the last subtitle plus the fixed 10-second trailing margin, and the
exported WAV file of that buffer has exactly that duration. -/
theorem dubOfflineCtx_spec (subs : List Subtitle) (lastSub : Subtitle) (t : Nat)
    (hlast : subs.getLast? = some lastSub)
    (ht : parseTime lastSub.endTime = some t) :
    dubOfflineCtx subs = ⟨1, some (dubSampleRate * (t + 10)), dubSampleRate⟩ ∧
      dubSampleRate = 24000 ∧
      wavDurationSeconds (dubSampleRate * (t + 10)) dubSampleRate = t + 10 := by
  refine ⟨?_, rfl, ?_⟩
  · simp [dubOfflineCtx, totalDuration, hlast, ht]
  · unfold wavDurationSeconds dubSampleRate
    exact Nat.mul_div_cancel_left (t + 10) (by norm_num)

/-- Witness for dubOfflineCtx_spec on a one-line list ending at five
seconds. -/
theorem dubOfflineCtx_spec_witness :
    ([subW3] : List Subtitle).getLast? = some subW3 ∧
      parseTime subW3.endTime = some 5 ∧
      dubOfflineCtx [subW3] = ⟨1, some (dubSampleRate * (5 + 10)), dubSampleRate⟩ :=
  ⟨by decide, by decide, (dubOfflineCtx_spec [subW3] subW3 5 (by decide) (by decide)).1⟩

end StudyFlow
